import Mathlib

/-!
Verification of the `serverless-frontend` plugin core against its
natural-language specification.

The development shallowly embeds the plugin's topology builder
(`src/cloudfront.ts`, `addCloudFrontResources` in `src/index.ts`), the
deployment orchestrator steps (`build`, `preUploadAssets`, `uploadAssets`,
`createInvalidation`, `emptySiteBucket` in `src/index.ts`), the asset
classifier (`uploadAssets` + `StandardCacheControl` in `src/s3.ts`) and
framework detection (`detectFramework`, `#hasSSR` in `src/index.ts`).

External collaborators (the process runner, the AWS request layer, the
`mime` package) are modelled at their interface: effectful calls become
explicit parameters or emitted-call lists, and fallible code returns
`Except`.
-/

/-- JavaScript-level runtime errors and thrown `Error` values, as the
plugin can produce them: `typeError` models a `TypeError` raised by the
runtime (e.g. using the `in` operator on `undefined`), `jsError` models a
plain thrown `new Error(msg)`, and `serverlessError` models a thrown
`new this.serverless.classes.Error(msg)`. -/
inductive JsError
  | typeError (msg : String)
  | jsError (msg : String)
  | serverlessError (msg : String)
  deriving Repr, DecidableEq

/-- A CloudFormation string value (`CfString` in `src/s3.ts` /
`src/cloudformation.ts`): either a literal, a `Ref`, an `Fn::GetAtt`, or
the `Fn::Select`-of-`Fn::Split`-of-`Fn::GetAtt` shape used for the Lambda
function URL domain. -/
inductive CfString
  | str (s : String)
  | ref (name : String)
  | getAtt (logicalId attr : String)
  | selectSplitGetAtt (index : Nat) (separator : String) (logicalId attr : String)
  deriving Repr, DecidableEq

/-- `CloudFrontArray<T>` from `src/cloudfront.ts`: a list together with its
explicit `Quantity`. -/
structure CloudFrontArray (T : Type) where
  Quantity : Nat
  Items : List T
  deriving Repr, DecidableEq

/-- `cloudfrontArray` from `src/cloudfront.ts`. -/
def cloudfrontArray {T : Type} (array : List T) : CloudFrontArray T :=
  { Quantity := array.length, Items := array }

/-- The kind-specific part of a CloudFront origin: an S3 origin carries an
origin access control id and an (empty) origin access identity; a custom
origin carries its protocol policy and SSL protocols
(`CloudFrontS3Origin` / `CloudFrontCustomOrigin` in `src/cloudfront.ts`). -/
inductive OriginTypeConfig
  | s3Origin (originAccessControlId : CfString) (originAccessIdentity : String)
  | customOrigin (originProtocolPolicy : String) (originSSLProtocols : List String)
  deriving Repr, DecidableEq

/-- `CloudFrontOrigin` from `src/cloudfront.ts`. -/
structure CloudFrontOrigin where
  Id : String
  DomainName : CfString
  OriginPath : Option String := none
  typeConfig : OriginTypeConfig
  deriving Repr, DecidableEq

/-- Whether an origin is an object-store (S3) origin. -/
def CloudFrontOrigin.isObjectStore (o : CloudFrontOrigin) : Bool :=
  match o.typeConfig with
  | .s3Origin _ _ => true
  | .customOrigin _ _ => false

/-- A member of an origin group (`Members.Items` entry). -/
structure OriginGroupMember where
  OriginId : String
  deriving Repr, DecidableEq

/-- `FailoverCriteria` of an origin group. -/
structure FailoverCriteria where
  StatusCodes : CloudFrontArray Nat
  deriving Repr, DecidableEq

/-- `CloudFrontOriginGroup` from `src/cloudfront.ts`. -/
structure CloudFrontOriginGroup where
  Id : String
  FailoverCriteria : FailoverCriteria
  Members : CloudFrontArray OriginGroupMember
  deriving Repr, DecidableEq

/-- A viewer-request (or other) function association on a cache behavior. -/
structure FunctionAssociation where
  EventType : String
  FunctionARN : CfString
  deriving Repr, DecidableEq

/-- `DefaultCacheBehavior` from `src/cloudfront.ts` (a cache behavior
without a path pattern). -/
structure DefaultCacheBehavior where
  AllowedMethods : List String
  CachedMethods : List String
  CachePolicyId : CfString
  OriginRequestPolicyId : String
  TargetOriginId : String
  ViewerProtocolPolicy : String
  FunctionAssociations : Option (List FunctionAssociation) := none
  deriving Repr, DecidableEq

/-- `CloudFrontCacheBehavior` from `src/cloudfront.ts`: a path pattern
plus the remaining behavior fields (the source builds it by spreading a
`DefaultCacheBehavior` next to `PathPattern`). -/
structure CloudFrontCacheBehavior where
  PathPattern : String
  behavior : DefaultCacheBehavior
  deriving Repr, DecidableEq

/-- `ViewerCertificate` of a distribution config. -/
structure ViewerCertificate where
  AcmCertificateArn : String
  MinimumProtocolVersion : String
  SslSupportMethod : String
  deriving Repr, DecidableEq

/-- `Partial<CloudFrontDistributionConfig>` as assembled by
`addCloudFrontResources`: fields the source may leave `undefined` are
`Option`-valued. -/
structure DistributionConfig where
  Enabled : Bool
  HttpVersion : String
  PriceClass : String
  IPV6Enabled : Bool
  Comment : Option String := none
  DefaultRootObject : Option String := none
  Aliases : Option (List String) := none
  ViewerCertificate : Option ViewerCertificate := none
  Origins : Option (List CloudFrontOrigin) := none
  OriginGroups : Option (CloudFrontArray CloudFrontOriginGroup) := none
  DefaultCacheBehavior : Option DefaultCacheBehavior := none
  CacheBehaviors : Option (List CloudFrontCacheBehavior) := none
  deriving Repr, DecidableEq

/-! ### Constants from `src/cloudfront.ts` -/

def CachePolicies.CachingOptimized : CfString :=
  .str "658327ea-f89d-4fab-a63d-7e88639e58f6"

def CachePolicies.ServerFunctionCachePolicy : CfString :=
  .ref "SiteSSRCachePolicy"

def OriginRequestPolicies.AllViewerExceptHostHeader : String :=
  "b689b0a8-53d0-40ab-baf2-68738e2966ac"

def OriginRequestPolicies.CORS_S3Origin : String :=
  "88a5eaf4-2fd4-4709-b370-b4c650ea3fcf"

def HttpMethods.ReadWithoutCors : List String := ["GET", "HEAD"]

def HttpMethods.Read : List String := ["GET", "HEAD", "OPTIONS"]

def HttpMethods.ReadWrite : List String :=
  ["GET", "HEAD", "OPTIONS", "PUT", "PATCH", "POST", "DELETE"]

/-- `StandardOrigins.staticFiles` from `src/cloudfront.ts`. -/
def StandardOrigins.staticFiles : CloudFrontOrigin :=
  { Id := "StaticFiles"
    DomainName := .getAtt "SiteBucket" "RegionalDomainName"
    typeConfig := .s3Origin (.getAtt "SiteOriginAccessControl" "Id") "" }

/-- `StandardOrigins.staticFilesFallback` from `src/cloudfront.ts`:
identical S3 target, but with the `OriginPath` override that turns the
originally requested path into a query parameter of `index.html`. -/
def StandardOrigins.staticFilesFallback : CloudFrontOrigin :=
  { Id := "StaticFilesFallback"
    DomainName := .getAtt "SiteBucket" "RegionalDomainName"
    OriginPath := some "/index.html?fallback="
    typeConfig := .s3Origin (.getAtt "SiteOriginAccessControl" "Id") "" }

/-- `StandardOrigins.serverFunction` from `src/cloudfront.ts`. -/
def StandardOrigins.serverFunction : CloudFrontOrigin :=
  { Id := "ServerFunction"
    DomainName := .selectSplitGetAtt 2 "/" "ServerLambdaFunctionUrl" "FunctionUrl"
    typeConfig := .customOrigin "https-only" ["TLSv1.2"] }

/-- `StandardOriginGroups.staticFilesSPA` from `src/cloudfront.ts`. -/
def StandardOriginGroups.staticFilesSPA : CloudFrontOriginGroup :=
  { Id := "StaticFilesSPA"
    FailoverCriteria := { StatusCodes := cloudfrontArray [403, 404] }
    Members := cloudfrontArray
      [ { OriginId := StandardOrigins.staticFiles.Id }
      , { OriginId := StandardOrigins.staticFilesFallback.Id } ] }

/-- `StandardOriginGroups.staticFilesSSR` from `src/cloudfront.ts`. -/
def StandardOriginGroups.staticFilesSSR : CloudFrontOriginGroup :=
  { Id := "StaticFilesSSR"
    FailoverCriteria := { StatusCodes := cloudfrontArray [403, 404] }
    Members := cloudfrontArray
      [ { OriginId := StandardOrigins.staticFiles.Id }
      , { OriginId := StandardOrigins.serverFunction.Id } ] }

/-- `StandardCacheBehaviors.staticFiles` from `src/cloudfront.ts`. -/
def StandardCacheBehaviors.staticFiles : DefaultCacheBehavior :=
  { AllowedMethods := HttpMethods.ReadWithoutCors
    CachedMethods := HttpMethods.ReadWithoutCors
    CachePolicyId := CachePolicies.CachingOptimized
    OriginRequestPolicyId := OriginRequestPolicies.CORS_S3Origin
    TargetOriginId := StandardOrigins.staticFiles.Id
    ViewerProtocolPolicy := "redirect-to-https" }

/-- `StandardCacheBehaviors.staticFilesSPA` from `src/cloudfront.ts`. -/
def StandardCacheBehaviors.staticFilesSPA : DefaultCacheBehavior :=
  { AllowedMethods := HttpMethods.ReadWithoutCors
    CachedMethods := HttpMethods.ReadWithoutCors
    CachePolicyId := CachePolicies.CachingOptimized
    OriginRequestPolicyId := OriginRequestPolicies.CORS_S3Origin
    TargetOriginId := StandardOriginGroups.staticFilesSPA.Id
    ViewerProtocolPolicy := "redirect-to-https" }

/-- `StandardCacheBehaviors.staticFilesSSR` from `src/cloudfront.ts`. -/
def StandardCacheBehaviors.staticFilesSSR : DefaultCacheBehavior :=
  { AllowedMethods := HttpMethods.ReadWithoutCors
    CachedMethods := HttpMethods.ReadWithoutCors
    CachePolicyId := CachePolicies.CachingOptimized
    OriginRequestPolicyId := OriginRequestPolicies.CORS_S3Origin
    TargetOriginId := StandardOriginGroups.staticFilesSSR.Id
    ViewerProtocolPolicy := "redirect-to-https" }

/-- `StandardCacheBehaviors.serverFunction` from `src/cloudfront.ts`. -/
def StandardCacheBehaviors.serverFunction : DefaultCacheBehavior :=
  { AllowedMethods := HttpMethods.ReadWrite
    CachedMethods := HttpMethods.Read
    CachePolicyId := CachePolicies.ServerFunctionCachePolicy
    OriginRequestPolicyId := OriginRequestPolicies.AllViewerExceptHostHeader
    TargetOriginId := StandardOrigins.serverFunction.Id
    ViewerProtocolPolicy := "redirect-to-https" }

/-! ### Constants from `src/s3.ts` -/

/-- `StandardCacheControl.normal` from `src/s3.ts`. -/
def StandardCacheControl.normal : String :=
  "public,max-age=0,s-maxage=86400,stale-while-revalidate=8640"

/-- `StandardCacheControl.immutable` from `src/s3.ts`. -/
def StandardCacheControl.immutable : String :=
  "public,max-age=31536000,immutable"

/-! ### Framework model and plugin configuration (`src/index.ts`) -/

/-- The `Framework` union type from `src/index.ts`. The TypeScript type is
`"vite" | "nitro" | "nuxt" | "tanstack-start"`, but the YAML configuration
is not validated at runtime, so an arbitrary unsupported string can flow
in; `other` captures that runtime possibility (it is what the `default`
branch of `#hasSSR` rejects). -/
inductive Framework
  | vite
  | nitro
  | nuxt
  | tanstackStart
  | other (s : String)
  deriving Repr, DecidableEq

/-- A framework value that the plugin supports (everything except an
unsupported override string). `none` is the explicit `null` override. -/
def supportedFramework : Option Framework → Bool
  | some (.other _) => false
  | _ => true

/-- `aliases` accepts a comma-joined string or an explicit list
(`string | string[]` in `src/index.ts`); `buildCommand` has the same
shape. -/
inductive JsStringOrList
  | str (s : String)
  | list (l : List String)
  deriving Repr, DecidableEq

/-- The `cloudfront` block of `FrontendConfig` in `src/index.ts`; every
field is optional. -/
structure CloudFrontOverrides where
  description : Option String := none
  price_class : Option String := none
  ipv6 : Option Bool := none
  enabled : Option Bool := none
  http : Option String := none
  ssl_version : Option String := none
  deriving Repr, DecidableEq

/-- `FrontendConfig` from `src/index.ts` (the `custom.frontend` block).
`framework`'s outer `Option` is key presence (`undefined`), the inner
`Option` is the explicit `null` override. -/
structure FrontendConfig where
  buildCommand : Option JsStringOrList := none
  buildEnvironment : Option (List (String × String)) := none
  framework : Option (Option Framework) := none
  ssrForwardHost : Option Bool := none
  aliases : Option JsStringOrList := none
  certificate : Option String := none
  cloudfront : Option CloudFrontOverrides := none
  deriving Repr, DecidableEq

/-- `#hasSSR` from `src/index.ts`: `nuxt`, `nitro` and `tanstack-start`
have server compute, `vite` and `null` do not, and any other value makes
the method throw. -/
def hasSSR : Option Framework → Except JsError Bool
  | some .nuxt | some .nitro | some .tanstackStart => .ok true
  | some .vite | none => .ok false
  | some (.other s) =>
      .error (.jsError
        ("Don\x27t know whether framework \x27" ++ s ++ "\x27 has SSR."))

/-! ### Topology builder (`addCloudFrontResources` in `src/index.ts`)

The builder is split into the same stages the source runs through in
order: the base fields with their defaults, the alias/certificate block,
the per-framework topology `switch`, and the SSR host-forwarding function
association pass. -/

/-- JavaScript truthiness of the `aliases` configuration value as tested
by `if (aliases && certificate)`: an empty string is falsy, every array
(even an empty one) is truthy, an absent key is falsy. -/
def aliasesTruthy : Option JsStringOrList → Bool
  | some (.str s) => !s.isEmpty
  | some (.list _) => true
  | none => false

/-- JavaScript truthiness of the `certificate` configuration value: a
non-empty string. -/
def certificateTruthy : Option String → Bool
  | some s => !s.isEmpty
  | none => false

/-- The alias list as normalized by the source: a string is split on
commas, a list is taken as-is. -/
def aliasesValue : Option JsStringOrList → List String
  | some (.str s) => s.splitOn ","
  | some (.list l) => l
  | none => []

/-- The base `distributionConfig` fields with their defaults
(`addCloudFrontResources`, before the alias block). -/
def baseDistributionConfig (cfg : FrontendConfig) : DistributionConfig :=
  let config := cfg.cloudfront.getD {}
  { Enabled := config.enabled.getD true
    HttpVersion := config.http.getD "http2and3"
    PriceClass := config.price_class.getD "PriceClass_100"
    IPV6Enabled := config.ipv6.getD true
    Comment := config.description }

/-- The `if (aliases && certificate)` block of `addCloudFrontResources`:
only when both values are truthy are `Aliases` and `ViewerCertificate`
set, the alias string being split on commas. -/
def applyAliasCertificate (cfg : FrontendConfig) (dc : DistributionConfig) :
    DistributionConfig :=
  if aliasesTruthy cfg.aliases && certificateTruthy cfg.certificate then
    { dc with
      Aliases := some (aliasesValue cfg.aliases)
      ViewerCertificate := some
        { AcmCertificateArn := cfg.certificate.getD ""
          MinimumProtocolVersion :=
            ((cfg.cloudfront.getD {}).ssl_version).getD "TLSv1.2_2021"
          SslSupportMethod := "sni-only" } }
  else dc

/-- The kind of a `Dirent` returned by `readdir(..., { withFileTypes:
true })`: a regular file, a directory, or anything else (symlink, socket,
FIFO, device). -/
inductive DirEntryKind
  | file
  | directory
  | otherKind
  deriving Repr, DecidableEq

/-- One top-level entry of the public directory listing. -/
structure DirEntry where
  name : String
  kind : DirEntryKind
  deriving Repr, DecidableEq

/-- The loop body of the SSR branch: an entry yields a cache behavior only
when `file.isFile() || file.isDirectory()`, with pattern
`file.name + (file.isDirectory() ? "/*" : "")` and the
`StandardCacheBehaviors.staticFilesSSR` fields spread in. -/
def ssrCacheBehaviorFor (file : DirEntry) : Option CloudFrontCacheBehavior :=
  match file.kind with
  | .file =>
      some { PathPattern := file.name
             behavior := StandardCacheBehaviors.staticFilesSSR }
  | .directory =>
      some { PathPattern := file.name ++ "/*"
             behavior := StandardCacheBehaviors.staticFilesSSR }
  | .otherKind => none

/-- The per-framework `switch` of `addCloudFrontResources`: the SSR
frameworks get the `StaticFiles`/`ServerFunction` origins, the
`StaticFilesSSR` group, the server default behavior and one path-scoped
behavior per file/directory entry of `.output/public`; `vite` gets the
SPA shape; any other value leaves the topology fields unset. -/
def applyTopology (framework : Option Framework)
    (publicListing : List DirEntry) (dc : DistributionConfig) :
    DistributionConfig :=
  match framework with
  | some .nuxt | some .nitro | some .tanstackStart =>
      { dc with
        Origins := some [StandardOrigins.staticFiles, StandardOrigins.serverFunction]
        OriginGroups := some (cloudfrontArray [StandardOriginGroups.staticFilesSSR])
        DefaultCacheBehavior := some StandardCacheBehaviors.serverFunction
        CacheBehaviors := some (publicListing.filterMap ssrCacheBehaviorFor) }
  | some .vite =>
      { dc with
        DefaultRootObject := some "index.html"
        Origins := some [StandardOrigins.staticFiles, StandardOrigins.staticFilesFallback]
        OriginGroups := some (cloudfrontArray [StandardOriginGroups.staticFilesSPA])
        DefaultCacheBehavior := some StandardCacheBehaviors.staticFilesSPA }
  | _ => dc

/-- The viewer-request association attached by the SSR host-forwarding
pass. -/
def forwardHostAssociation : FunctionAssociation :=
  { EventType := "viewer-request"
    FunctionARN := .getAtt "SSRForwardHost" "FunctionARN" }

/-- One step of the host-forwarding pass: behaviors whose target is the
`ServerFunction` origin or the `StaticFilesSSR` group get the
association. -/
def attachForwardHost (b : DefaultCacheBehavior) : DefaultCacheBehavior :=
  if b.TargetOriginId = StandardOrigins.serverFunction.Id ∨
      b.TargetOriginId = StandardOriginGroups.staticFilesSSR.Id then
    { b with FunctionAssociations := some [forwardHostAssociation] }
  else b

/-- The `if (this.#hasSSR(framework))` / `ssrForwardHost ?? true` pass of
`addCloudFrontResources`: when SSR and host forwarding are enabled, the
default behavior and every path-scoped behavior run through
`attachForwardHost`. -/
def applyForwardHost (cfg : FrontendConfig) (ssr : Bool)
    (dc : DistributionConfig) : DistributionConfig :=
  if ssr && cfg.ssrForwardHost.getD true then
    { dc with
      DefaultCacheBehavior := dc.DefaultCacheBehavior.map attachForwardHost
      CacheBehaviors := dc.CacheBehaviors.map
        (List.map fun cb => { cb with behavior := attachForwardHost cb.behavior }) }
  else dc

/-- The `DistributionConfig` assembled by `addCloudFrontResources`, given
the detected framework and the top-level listing of `.output/public`.
The stages run in source order; `#hasSSR` can throw on an unsupported
framework value, which makes the whole method throw. -/
def addCloudFrontDistributionConfig (cfg : FrontendConfig)
    (framework : Option Framework) (publicListing : List DirEntry) :
    Except JsError DistributionConfig := do
  let dc := applyAliasCertificate cfg (baseDistributionConfig cfg)
  let dc := applyTopology framework publicListing dc
  let ssr ← hasSSR framework
  return applyForwardHost cfg ssr dc

/-! ### Helper lemmas about the builder stages -/

theorem applyAliasCertificate_Origins (cfg : FrontendConfig)
    (dc : DistributionConfig) :
    (applyAliasCertificate cfg dc).Origins = dc.Origins := by
  unfold applyAliasCertificate; split <;> rfl

theorem applyAliasCertificate_CacheBehaviors (cfg : FrontendConfig)
    (dc : DistributionConfig) :
    (applyAliasCertificate cfg dc).CacheBehaviors = dc.CacheBehaviors := by
  unfold applyAliasCertificate; split <;> rfl

theorem applyAliasCertificate_DefaultCacheBehavior (cfg : FrontendConfig)
    (dc : DistributionConfig) :
    (applyAliasCertificate cfg dc).DefaultCacheBehavior = dc.DefaultCacheBehavior := by
  unfold applyAliasCertificate; split <;> rfl

theorem applyTopology_Aliases (fw : Option Framework) (l : List DirEntry)
    (dc : DistributionConfig) :
    (applyTopology fw l dc).Aliases = dc.Aliases := by
  unfold applyTopology
  rcases fw with _ | f
  · rfl
  · cases f <;> rfl

theorem applyTopology_ViewerCertificate (fw : Option Framework)
    (l : List DirEntry) (dc : DistributionConfig) :
    (applyTopology fw l dc).ViewerCertificate = dc.ViewerCertificate := by
  unfold applyTopology
  rcases fw with _ | f
  · rfl
  · cases f <;> rfl

theorem applyForwardHost_Aliases (cfg : FrontendConfig) (ssr : Bool)
    (dc : DistributionConfig) :
    (applyForwardHost cfg ssr dc).Aliases = dc.Aliases := by
  unfold applyForwardHost; split <;> rfl

theorem applyForwardHost_ViewerCertificate (cfg : FrontendConfig) (ssr : Bool)
    (dc : DistributionConfig) :
    (applyForwardHost cfg ssr dc).ViewerCertificate = dc.ViewerCertificate := by
  unfold applyForwardHost; split <;> rfl

theorem attachForwardHost_TargetOriginId (b : DefaultCacheBehavior) :
    (attachForwardHost b).TargetOriginId = b.TargetOriginId := by
  unfold attachForwardHost; split <;> rfl

/-- The patterns the (amended) claim C1 predicts from the directory
listing: `<name>/*` for a directory entry, `<name>` for a regular-file
entry, nothing for any other entry kind. -/
def expectedSSRPatterns (listing : List DirEntry) : List String :=
  listing.filterMap fun e =>
    match e.kind with
    | .file => some e.name
    | .directory => some (e.name ++ "/*")
    | .otherKind => none

theorem ssr_behaviors_patterns (listing : List DirEntry) :
    (listing.filterMap ssrCacheBehaviorFor).map (fun cb => cb.PathPattern) =
      expectedSSRPatterns listing := by
  induction listing with
  | nil => rfl
  | cons e rest ih =>
      unfold expectedSSRPatterns at ih ⊢
      cases he : e.kind <;>
        simp [List.filterMap_cons, ssrCacheBehaviorFor, he, ih]

theorem ssr_behaviors_target (listing : List DirEntry) :
    ∀ cb ∈ listing.filterMap ssrCacheBehaviorFor,
      cb.behavior.TargetOriginId = "StaticFilesSSR" := by
  intro cb hcb
  rcases List.mem_filterMap.mp hcb with ⟨e, -, he⟩
  cases hk : e.kind <;> simp [ssrCacheBehaviorFor, hk] at he <;>
    rw [← he] <;> rfl

theorem mapped_attach_patterns (l : List CloudFrontCacheBehavior) :
    (l.map fun cb => { cb with behavior := attachForwardHost cb.behavior }).map
        (fun cb => cb.PathPattern) =
      l.map (fun cb => cb.PathPattern) := by
  induction l with
  | nil => rfl
  | cons cb rest ih => simp [ih]

theorem mapped_attach_target (l : List CloudFrontCacheBehavior)
    (h : ∀ cb ∈ l, cb.behavior.TargetOriginId = "StaticFilesSSR") :
    ∀ cb ∈ l.map (fun cb => { cb with behavior := attachForwardHost cb.behavior }),
      cb.behavior.TargetOriginId = "StaticFilesSSR" := by
  intro cb hcb
  rcases List.mem_map.mp hcb with ⟨cb0, hmem, rfl⟩
  simpa [attachForwardHost_TargetOriginId] using h cb0 hmem

/-! ### Claims C1 and C2: the two topology shapes -/

theorem addCloudFront_ssr_eq (cfg : FrontendConfig) (fw : Option Framework)
    (listing : List DirEntry)
    (h : fw = some .nuxt ∨ fw = some .nitro ∨ fw = some .tanstackStart) :
    addCloudFrontDistributionConfig cfg fw listing =
      .ok (applyForwardHost cfg true
        (applyTopology fw listing
          (applyAliasCertificate cfg (baseDistributionConfig cfg)))) := by
  rcases h with h | h | h <;> subst h <;> rfl

theorem applyForwardHost_default_target (cfg : FrontendConfig) (ssr : Bool)
    (dc : DistributionConfig) :
    (applyForwardHost cfg ssr dc).DefaultCacheBehavior.map
        (fun b => b.TargetOriginId) =
      dc.DefaultCacheBehavior.map (fun b => b.TargetOriginId) := by
  unfold applyForwardHost
  split
  · cases dc.DefaultCacheBehavior with
    | none => rfl
    | some b => simp [attachForwardHost_TargetOriginId]
  · rfl

theorem applyForwardHost_patterns (cfg : FrontendConfig) (ssr : Bool)
    (dc : DistributionConfig) :
    (applyForwardHost cfg ssr dc).CacheBehaviors.map
        (fun l => l.map fun cb => cb.PathPattern) =
      dc.CacheBehaviors.map (fun l => l.map fun cb => cb.PathPattern) := by
  unfold applyForwardHost
  split
  · cases dc.CacheBehaviors with
    | none => rfl
    | some l => exact congrArg some (mapped_attach_patterns l)
  · rfl

theorem applyForwardHost_behavior_targets (cfg : FrontendConfig) (ssr : Bool)
    (dc : DistributionConfig)
    (h : ∀ cb ∈ dc.CacheBehaviors.getD [],
      cb.behavior.TargetOriginId = "StaticFilesSSR") :
    ∀ cb ∈ (applyForwardHost cfg ssr dc).CacheBehaviors.getD [],
      cb.behavior.TargetOriginId = "StaticFilesSSR" := by
  unfold applyForwardHost
  split
  · cases hc : dc.CacheBehaviors with
    | none => simp
    | some l =>
        intro cb hcb
        rcases List.mem_map.mp (by simpa using hcb) with ⟨cb0, hmem, rfl⟩
        simpa [attachForwardHost_TargetOriginId] using h cb0 (by simp [hc, hmem])
  · exact h

theorem applyTopology_ssr_fields (fw : Option Framework)
    (listing : List DirEntry) (dc : DistributionConfig)
    (h : fw = some .nuxt ∨ fw = some .nitro ∨ fw = some .tanstackStart) :
    (applyTopology fw listing dc).DefaultCacheBehavior =
        some StandardCacheBehaviors.serverFunction ∧
      (applyTopology fw listing dc).CacheBehaviors =
        some (listing.filterMap ssrCacheBehaviorFor) := by
  rcases h with h | h | h <;> subst h <;> exact ⟨rfl, rfl⟩

/-- C1 (amended): for every server-compute topology the default cache
behavior targets `ServerFunction`, and the path-scoped cache behaviors are
exactly one per top-level public-directory entry that is a regular file or
a directory — pattern `<name>/*` for a directory, `<name>` for a file, in
listing order — each targeting the `StaticFilesSSR` origin group; entries
of any other kind (e.g. symlinks) are skipped. -/
theorem C1_ssr_cache_behaviors (cfg : FrontendConfig) (fw : Option Framework)
    (listing : List DirEntry)
    (h : fw = some .nuxt ∨ fw = some .nitro ∨ fw = some .tanstackStart) :
    ∃ dc, addCloudFrontDistributionConfig cfg fw listing = .ok dc ∧
      dc.DefaultCacheBehavior.map (fun b => b.TargetOriginId) =
        some "ServerFunction" ∧
      dc.CacheBehaviors.map (fun l => l.map fun cb => cb.PathPattern) =
        some (expectedSSRPatterns listing) ∧
      ∀ cb ∈ dc.CacheBehaviors.getD [],
        cb.behavior.TargetOriginId = "StaticFilesSSR" := by
  refine ⟨_, addCloudFront_ssr_eq cfg fw listing h, ?_, ?_, ?_⟩
  · rw [applyForwardHost_default_target,
      (applyTopology_ssr_fields fw listing _ h).1]
    rfl
  · rw [applyForwardHost_patterns, (applyTopology_ssr_fields fw listing _ h).2]
    exact congrArg some (ssr_behaviors_patterns listing)
  · apply applyForwardHost_behavior_targets
    intro cb hcb
    rw [(applyTopology_ssr_fields fw listing _ h).2] at hcb
    exact ssr_behaviors_target listing cb (by simpa using hcb)

/-- Witness for C1 at the spec scenario: entries `assets` (directory) and
`favicon.ico` (file) yield exactly the patterns
`["assets/*", "favicon.ico"]` in that order. -/
theorem C1_ssr_cache_behaviors_witness :
    (∃ dc, addCloudFrontDistributionConfig {} (some .nuxt)
        [ { name := "assets", kind := .directory }
        , { name := "favicon.ico", kind := .file } ] = .ok dc ∧
      dc.DefaultCacheBehavior.map (fun b => b.TargetOriginId) =
        some "ServerFunction" ∧
      dc.CacheBehaviors.map (fun l => l.map fun cb => cb.PathPattern) =
        some (expectedSSRPatterns
          [ { name := "assets", kind := .directory }
          , { name := "favicon.ico", kind := .file } ]) ∧
      ∀ cb ∈ dc.CacheBehaviors.getD [],
        cb.behavior.TargetOriginId = "StaticFilesSSR") ∧
    expectedSSRPatterns
        [ { name := "assets", kind := .directory }
        , { name := "favicon.ico", kind := .file } ] =
      ["assets/*", "favicon.ico"] :=
  ⟨C1_ssr_cache_behaviors {} (some .nuxt) _ (Or.inl rfl), rfl⟩

/-- Counterexample to C1 as stated: a public directory whose single
top-level entry is neither a regular file nor a directory (e.g. a
symlink) produces an empty path-scoped behavior list, not "exactly one
path-scoped cache behavior" for that entry. -/
theorem C1_counterexample :
    ∃ dc, addCloudFrontDistributionConfig {} (some .nuxt)
        [ { name := "link", kind := .otherKind } ] = .ok dc ∧
      dc.CacheBehaviors = some [] :=
  ⟨_, rfl, rfl⟩

/-- C2: for the static-only (vite/SPA) topology the builder emits exactly
two object-store origins with the same bucket domain, the second
(`StaticFilesFallback`) carrying the `/index.html?fallback=` origin path
override, exactly one origin group (`StaticFilesSPA`) over those two
origins with failover codes {403, 404} targeted by the default cache
behavior, no path-scoped cache behaviors, and
`DefaultRootObject = "index.html"`. -/
theorem C2_spa_topology (cfg : FrontendConfig) (listing : List DirEntry) :
    ∃ dc, addCloudFrontDistributionConfig cfg (some .vite) listing = .ok dc ∧
      ∃ o1 o2 g,
        dc.Origins = some [o1, o2] ∧
        o1.isObjectStore = true ∧ o2.isObjectStore = true ∧
        o1.DomainName = o2.DomainName ∧
        o1.OriginPath = none ∧
        o2.Id = "StaticFilesFallback" ∧
        o2.OriginPath = some "/index.html?fallback=" ∧
        dc.OriginGroups = some { Quantity := 1, Items := [g] } ∧
        g.Id = "StaticFilesSPA" ∧
        g.Members.Items.map (fun m => m.OriginId) = [o1.Id, o2.Id] ∧
        g.FailoverCriteria.StatusCodes = { Quantity := 2, Items := [403, 404] } ∧
        dc.DefaultCacheBehavior.map (fun b => b.TargetOriginId) =
          some "StaticFilesSPA" ∧
        dc.CacheBehaviors = none ∧
        dc.DefaultRootObject = some "index.html" := by
  refine ⟨_, rfl, StandardOrigins.staticFiles, StandardOrigins.staticFilesFallback,
    StandardOriginGroups.staticFilesSPA,
    rfl, rfl, rfl, rfl, rfl, rfl, rfl, rfl, rfl, rfl, rfl, rfl, ?_, rfl⟩
  show (applyTopology (some .vite) listing
      (applyAliasCertificate cfg (baseDistributionConfig cfg))).CacheBehaviors = none
  have : (applyTopology (some .vite) listing
      (applyAliasCertificate cfg (baseDistributionConfig cfg))).CacheBehaviors =
      (applyAliasCertificate cfg (baseDistributionConfig cfg)).CacheBehaviors := rfl
  rw [this, applyAliasCertificate_CacheBehaviors]
  rfl

/-! ### Claim C4: alias/certificate wiring -/

theorem baseDistributionConfig_Aliases (cfg : FrontendConfig) :
    (baseDistributionConfig cfg).Aliases = none := rfl

theorem baseDistributionConfig_ViewerCertificate (cfg : FrontendConfig) :
    (baseDistributionConfig cfg).ViewerCertificate = none := rfl

theorem string_isEmpty_false_iff (s : String) :
    s.isEmpty = false ↔ ¬s = "" := by
  rw [Bool.eq_false_iff]
  exact not_congr (String.isEmpty_iff s)

theorem aliasesTruthy_iff (a : Option JsStringOrList) :
    aliasesTruthy a = true ↔
      ((∃ s, a = some (.str s) ∧ s ≠ "") ∨ ∃ l, a = some (.list l)) := by
  rcases a with _ | x
  · simp [aliasesTruthy]
  · cases x with
    | str s => simp [aliasesTruthy, string_isEmpty_false_iff]
    | list l => simp [aliasesTruthy]

theorem certificateTruthy_iff (c : Option String) :
    certificateTruthy c = true ↔ ∃ s, c = some s ∧ s ≠ "" := by
  rcases c with _ | s
  · simp [certificateTruthy]
  · simp [certificateTruthy, string_isEmpty_false_iff]

/-- For every supported framework value, `addCloudFrontResources` runs to
completion and its distribution config is the staged composition. -/
theorem addCloudFront_supported_eq (cfg : FrontendConfig)
    (fw : Option Framework) (listing : List DirEntry)
    (h : supportedFramework fw = true) :
    ∃ ssr, hasSSR fw = .ok ssr ∧
      addCloudFrontDistributionConfig cfg fw listing =
        .ok (applyForwardHost cfg ssr
          (applyTopology fw listing
            (applyAliasCertificate cfg (baseDistributionConfig cfg)))) := by
  rcases fw with _ | f
  · exact ⟨false, rfl, rfl⟩
  · cases f with
    | vite => exact ⟨false, rfl, rfl⟩
    | nitro => exact ⟨true, rfl, rfl⟩
    | nuxt => exact ⟨true, rfl, rfl⟩
    | tanstackStart => exact ⟨true, rfl, rfl⟩
    | other s => simp [supportedFramework] at h

/-- C4 (amended): the emitted topology contains both `Aliases` and
`ViewerCertificate` iff both configuration values are supplied and truthy
in the JavaScript sense (aliases: a non-empty string or any list;
certificate: a non-empty string); otherwise it contains neither. When both
are set, a string alias value is split on commas and a list is taken
as-is, and the certificate value becomes the ACM certificate ARN. An
empty-string alias or certificate value counts as absent, unlike what the
claim's "supplied" states. -/
theorem C4_alias_certificate (cfg : FrontendConfig) (fw : Option Framework)
    (listing : List DirEntry) (h : supportedFramework fw = true) :
    ∃ dc, addCloudFrontDistributionConfig cfg fw listing = .ok dc ∧
      ((dc.Aliases.isSome = true ∧ dc.ViewerCertificate.isSome = true) ↔
        (((∃ s, cfg.aliases = some (.str s) ∧ s ≠ "") ∨
            ∃ l, cfg.aliases = some (.list l)) ∧
          ∃ c, cfg.certificate = some c ∧ c ≠ "")) ∧
      (dc.Aliases = none ↔ dc.ViewerCertificate = none) ∧
      (∀ s c, cfg.aliases = some (.str s) → s ≠ "" →
        cfg.certificate = some c → c ≠ "" →
        dc.Aliases = some (s.splitOn ",") ∧
        dc.ViewerCertificate.map (fun v => v.AcmCertificateArn) = some c) ∧
      (∀ l c, cfg.aliases = some (.list l) →
        cfg.certificate = some c → c ≠ "" →
        dc.Aliases = some l ∧
        dc.ViewerCertificate.map (fun v => v.AcmCertificateArn) = some c) := by
  obtain ⟨ssr, -, heq⟩ := addCloudFront_supported_eq cfg fw listing h
  refine ⟨_, heq, ?_⟩
  simp only [applyForwardHost_Aliases, applyForwardHost_ViewerCertificate,
    applyTopology_Aliases, applyTopology_ViewerCertificate]
  unfold applyAliasCertificate
  split
  case isTrue hcond =>
    rw [Bool.and_eq_true] at hcond
    refine ⟨?_, by simp, ?_, ?_⟩
    · exact iff_of_true ⟨rfl, rfl⟩
        ⟨(aliasesTruthy_iff cfg.aliases).mp hcond.1,
          (certificateTruthy_iff cfg.certificate).mp hcond.2⟩
    · intro s c ha _ hc _
      constructor
      · simp [aliasesValue, ha]
      · simp [hc]
    · intro l c ha hc _
      constructor
      · simp [aliasesValue, ha]
      · simp [hc]
  case isFalse hcond =>
    rw [Bool.and_eq_true] at hcond
    rw [not_and_or] at hcond
    refine ⟨?_, by simp [baseDistributionConfig_Aliases,
        baseDistributionConfig_ViewerCertificate], ?_, ?_⟩
    · rw [baseDistributionConfig_Aliases, baseDistributionConfig_ViewerCertificate]
      simp only [Option.isSome_none]
      constructor
      · rintro ⟨h1, -⟩; exact absurd h1 (by simp)
      · rintro ⟨h1, h2⟩
        rcases hcond with hc | hc
        · exact absurd ((aliasesTruthy_iff cfg.aliases).mpr h1)
            (by simpa using hc)
        · exact absurd ((certificateTruthy_iff cfg.certificate).mpr h2)
            (by simpa using hc)
    · intro s c ha hs hc hcne
      exfalso
      rcases hcond with hbad | hbad
      · exact hbad ((aliasesTruthy_iff cfg.aliases).mpr (Or.inl ⟨s, ha, hs⟩))
      · exact hbad ((certificateTruthy_iff cfg.certificate).mpr ⟨c, hc, hcne⟩)
    · intro l c ha hc hcne
      exfalso
      rcases hcond with hbad | hbad
      · exact hbad ((aliasesTruthy_iff cfg.aliases).mpr (Or.inr ⟨l, ha⟩))
      · exact hbad ((certificateTruthy_iff cfg.certificate).mpr ⟨c, hc, hcne⟩)

/-- Witness for C4: an explicit alias list plus a non-empty certificate
produce both `Aliases` (taken as-is) and `ViewerCertificate`. -/
theorem C4_alias_certificate_witness :
    supportedFramework (some Framework.vite) = true ∧
    ∃ dc, addCloudFrontDistributionConfig
        { aliases := some (.list ["primary.tld", "www.primary.tld"])
          certificate := some "arn:aws:acm:us-east-1:123456789012:certificate/abc" }
        (some .vite) [] = .ok dc ∧
      dc.Aliases = some ["primary.tld", "www.primary.tld"] ∧
      dc.ViewerCertificate.map (fun v => v.AcmCertificateArn) =
        some "arn:aws:acm:us-east-1:123456789012:certificate/abc" := by
  refine ⟨rfl, ?_⟩
  obtain ⟨dc, heq, -, -, -, hlist⟩ :=
    C4_alias_certificate
      { aliases := some (.list ["primary.tld", "www.primary.tld"])
        certificate := some "arn:aws:acm:us-east-1:123456789012:certificate/abc" }
      (some .vite) [] rfl
  obtain ⟨h1, h2⟩ := hlist _ _ rfl rfl (by decide)
  exact ⟨dc, heq, h1, h2⟩

/-- Counterexample to C4 as stated: with `aliases` supplied as the empty
string and a certificate supplied, both values are supplied, yet the
emitted topology contains neither `Aliases` nor `ViewerCertificate` —
the source tests JavaScript truthiness (`if (aliases && certificate)`),
and the empty string is falsy. -/
theorem C4_counterexample :
    ∃ dc, addCloudFrontDistributionConfig
        { aliases := some (.str "")
          certificate := some "arn:aws:acm:us-east-1:123456789012:certificate/abc" }
        (some .vite) [] = .ok dc ∧
      dc.Aliases = none ∧ dc.ViewerCertificate = none :=
  ⟨_, rfl, rfl, rfl⟩

/-! ### Claim C8: referential integrity of the emitted topology -/

/-- The origin ids present in a topology. -/
def DistributionConfig.originIds (dc : DistributionConfig) : List String :=
  (dc.Origins.getD []).map (fun o => o.Id)

/-- The origin-group ids present in a topology. -/
def DistributionConfig.originGroupIds (dc : DistributionConfig) : List String :=
  ((dc.OriginGroups.map fun a => a.Items).getD []).map (fun g => g.Id)

/-- Every `TargetOriginId` referenced by the default cache behavior or a
path-scoped cache behavior. -/
def DistributionConfig.behaviorTargets (dc : DistributionConfig) : List String :=
  (dc.DefaultCacheBehavior.map (fun b => b.TargetOriginId)).toList ++
    (dc.CacheBehaviors.getD []).map (fun cb => cb.behavior.TargetOriginId)

/-- Every member origin id of every origin group in a topology. -/
def DistributionConfig.groupMemberIds (dc : DistributionConfig) : List String :=
  ((dc.OriginGroups.map fun a => a.Items).getD []).flatMap
    (fun g => g.Members.Items.map fun m => m.OriginId)

theorem applyForwardHost_Origins (cfg : FrontendConfig) (ssr : Bool)
    (dc : DistributionConfig) :
    (applyForwardHost cfg ssr dc).Origins = dc.Origins := by
  unfold applyForwardHost; split <;> rfl

theorem applyForwardHost_OriginGroups (cfg : FrontendConfig) (ssr : Bool)
    (dc : DistributionConfig) :
    (applyForwardHost cfg ssr dc).OriginGroups = dc.OriginGroups := by
  unfold applyForwardHost; split <;> rfl

theorem applyForwardHost_behaviorTargets (cfg : FrontendConfig) (ssr : Bool)
    (dc : DistributionConfig) :
    (applyForwardHost cfg ssr dc).behaviorTargets = dc.behaviorTargets := by
  unfold DistributionConfig.behaviorTargets
  rw [applyForwardHost_default_target]
  congr 1
  unfold applyForwardHost
  split
  · cases dc.CacheBehaviors with
    | none => rfl
    | some l =>
        simp [List.map_map, Function.comp, attachForwardHost_TargetOriginId]
  · rfl

/-- The three referential-integrity conditions of a topology: behavior
targets and group members resolve to origin or origin-group ids, and
group ids never collide with origin ids. -/
def topologyIntegrity (dc : DistributionConfig) : Prop :=
  (∀ t ∈ dc.behaviorTargets, t ∈ dc.originIds ∨ t ∈ dc.originGroupIds) ∧
    (∀ m ∈ dc.groupMemberIds, m ∈ dc.originIds ∨ m ∈ dc.originGroupIds) ∧
    ∀ g ∈ dc.originGroupIds, g ∉ dc.originIds

theorem applyForwardHost_originIds (cfg : FrontendConfig) (ssr : Bool)
    (dc : DistributionConfig) :
    (applyForwardHost cfg ssr dc).originIds = dc.originIds := by
  unfold DistributionConfig.originIds
  rw [applyForwardHost_Origins]

theorem applyForwardHost_originGroupIds (cfg : FrontendConfig) (ssr : Bool)
    (dc : DistributionConfig) :
    (applyForwardHost cfg ssr dc).originGroupIds = dc.originGroupIds := by
  unfold DistributionConfig.originGroupIds
  rw [applyForwardHost_OriginGroups]

theorem applyForwardHost_groupMemberIds (cfg : FrontendConfig) (ssr : Bool)
    (dc : DistributionConfig) :
    (applyForwardHost cfg ssr dc).groupMemberIds = dc.groupMemberIds := by
  unfold DistributionConfig.groupMemberIds
  rw [applyForwardHost_OriginGroups]

theorem applyForwardHost_integrity (cfg : FrontendConfig) (ssr : Bool)
    (dc : DistributionConfig) (h : topologyIntegrity dc) :
    topologyIntegrity (applyForwardHost cfg ssr dc) := by
  obtain ⟨h1, h2, h3⟩ := h
  refine ⟨?_, ?_, ?_⟩
  · intro t ht
    rw [applyForwardHost_behaviorTargets] at ht
    rw [applyForwardHost_originIds, applyForwardHost_originGroupIds]
    exact h1 t ht
  · intro m hm
    rw [applyForwardHost_groupMemberIds] at hm
    rw [applyForwardHost_originIds, applyForwardHost_originGroupIds]
    exact h2 m hm
  · intro g hg
    rw [applyForwardHost_originGroupIds] at hg
    rw [applyForwardHost_originIds]
    exact h3 g hg

theorem behaviorTargets_ssr (fw : Option Framework) (listing : List DirEntry)
    (dc : DistributionConfig)
    (h : fw = some .nuxt ∨ fw = some .nitro ∨ fw = some .tanstackStart) :
    (applyTopology fw listing dc).behaviorTargets =
      "ServerFunction" :: (listing.filterMap ssrCacheBehaviorFor).map
        (fun cb => cb.behavior.TargetOriginId) := by
  rcases h with h | h | h <;> subst h <;> rfl

theorem topology_ids_ssr (fw : Option Framework) (listing : List DirEntry)
    (dc : DistributionConfig)
    (h : fw = some .nuxt ∨ fw = some .nitro ∨ fw = some .tanstackStart) :
    (applyTopology fw listing dc).originIds = ["StaticFiles", "ServerFunction"] ∧
      (applyTopology fw listing dc).originGroupIds = ["StaticFilesSSR"] ∧
      (applyTopology fw listing dc).groupMemberIds =
        ["StaticFiles", "ServerFunction"] := by
  rcases h with h | h | h <;> subst h <;> exact ⟨rfl, rfl, rfl⟩

theorem topologyIntegrity_ssr (fw : Option Framework) (listing : List DirEntry)
    (dc : DistributionConfig)
    (h : fw = some .nuxt ∨ fw = some .nitro ∨ fw = some .tanstackStart) :
    topologyIntegrity (applyTopology fw listing dc) := by
  obtain ⟨hids, hgids, hmids⟩ := topology_ids_ssr fw listing dc h
  refine ⟨?_, ?_, ?_⟩
  · intro t ht
    rw [behaviorTargets_ssr fw listing dc h] at ht
    rw [hids, hgids]
    rcases List.mem_cons.mp ht with rfl | hb
    · left; simp
    · rcases List.mem_map.mp hb with ⟨cb, hcb, rfl⟩
      rw [ssr_behaviors_target listing cb hcb]
      right; simp
  · intro m hm
    rw [hmids] at hm
    rw [hids, hgids]
    exact Or.inl hm
  · intro g hg
    rw [hgids] at hg
    rw [hids]
    simp only [List.mem_singleton] at hg
    subst hg
    decide

theorem behaviorTargets_spa (listing : List DirEntry)
    (dc : DistributionConfig) (hcb : dc.CacheBehaviors = none) :
    (applyTopology (some .vite) listing dc).behaviorTargets =
      ["StaticFilesSPA"] := by
  unfold DistributionConfig.behaviorTargets
  rw [show (applyTopology (some .vite) listing dc).CacheBehaviors =
      dc.CacheBehaviors from rfl, hcb]
  rfl

theorem topologyIntegrity_spa (listing : List DirEntry)
    (dc : DistributionConfig) (hcb : dc.CacheBehaviors = none) :
    topologyIntegrity (applyTopology (some .vite) listing dc) := by
  refine ⟨?_, ?_, ?_⟩
  · intro t ht
    rw [behaviorTargets_spa listing dc hcb] at ht
    simp only [List.mem_singleton] at ht
    subst ht
    right
    show "StaticFilesSPA" ∈ (applyTopology (some .vite) listing dc).originGroupIds
    rw [show (applyTopology (some .vite) listing dc).originGroupIds =
      ["StaticFilesSPA"] from rfl]
    simp
  · intro m hm
    rw [show (applyTopology (some .vite) listing dc).groupMemberIds =
      ["StaticFiles", "StaticFilesFallback"] from rfl] at hm
    left
    rw [show (applyTopology (some .vite) listing dc).originIds =
      ["StaticFiles", "StaticFilesFallback"] from rfl]
    exact hm
  · intro g hg
    rw [show (applyTopology (some .vite) listing dc).originGroupIds =
      ["StaticFilesSPA"] from rfl] at hg
    rw [show (applyTopology (some .vite) listing dc).originIds =
      ["StaticFiles", "StaticFilesFallback"] from rfl]
    simp only [List.mem_singleton] at hg
    subst hg
    decide

/-- C8: for every topology the builder emits (SSR or SPA), every target
referenced by the default or a path-scoped cache behavior names an origin
or origin group of the topology, every origin-group member names an
origin or origin group, and no origin-group id collides with an origin
id. -/
theorem C8_target_integrity (cfg : FrontendConfig) (fw : Option Framework)
    (listing : List DirEntry)
    (h : fw = some .nuxt ∨ fw = some .nitro ∨ fw = some .tanstackStart ∨
      fw = some .vite) :
    ∃ dc, addCloudFrontDistributionConfig cfg fw listing = .ok dc ∧
      (∀ t ∈ dc.behaviorTargets, t ∈ dc.originIds ∨ t ∈ dc.originGroupIds) ∧
      (∀ m ∈ dc.groupMemberIds, m ∈ dc.originIds ∨ m ∈ dc.originGroupIds) ∧
      (∀ g ∈ dc.originGroupIds, g ∉ dc.originIds) := by
  have hsupp : supportedFramework fw = true := by
    rcases h with h | h | h | h <;> subst h <;> rfl
  obtain ⟨ssr, -, heq⟩ := addCloudFront_supported_eq cfg fw listing hsupp
  refine ⟨_, heq, ?_⟩
  have hint : topologyIntegrity (applyTopology fw listing
      (applyAliasCertificate cfg (baseDistributionConfig cfg))) := by
    rcases h with h | h | h | h
    · exact topologyIntegrity_ssr fw listing _ (Or.inl h)
    · exact topologyIntegrity_ssr fw listing _ (Or.inr (Or.inl h))
    · exact topologyIntegrity_ssr fw listing _ (Or.inr (Or.inr h))
    · subst h
      refine topologyIntegrity_spa listing _ ?_
      rw [applyAliasCertificate_CacheBehaviors]
      rfl
  exact applyForwardHost_integrity cfg ssr _ hint

/-- Witness for C8 at framework `nuxt` with the spec's example listing. -/
theorem C8_target_integrity_witness :
    ∃ dc, addCloudFrontDistributionConfig {} (some .nuxt)
        [ { name := "assets", kind := .directory }
        , { name := "favicon.ico", kind := .file } ] = .ok dc ∧
      (∀ t ∈ dc.behaviorTargets, t ∈ dc.originIds ∨ t ∈ dc.originGroupIds) ∧
      (∀ m ∈ dc.groupMemberIds, m ∈ dc.originIds ∨ m ∈ dc.originGroupIds) ∧
      (∀ g ∈ dc.originGroupIds, g ∉ dc.originIds) :=
  C8_target_integrity {} (some .nuxt) _ (Or.inl rfl)

/-! ### Claim C5: asset classification (`uploadAssets` in `src/index.ts`,
`StandardCacheControl` in `src/s3.ts`, `mime.getType`) -/

/-- A string-prefix test on the underlying character lists (kernel-
reducible counterpart of `String.isPrefixOf`). -/
def strPrefixOf (p s : String) : Bool := p.data.isPrefixOf s.data

/-- The per-framework immutable-asset test of `uploadAssets`: the
`immutableAssets` regular expressions `/^_nuxt\x2f/`, `/^assets\x2f/` and
`/^$/` applied with `baseKey.match(...)` — i.e. a path-prefix test, with
the fallback regex matching only the empty key. -/
def immutableAssetsTest (framework : Option Framework) (baseKey : String) :
    Bool :=
  match framework with
  | some .nuxt => strPrefixOf "_nuxt/" baseKey
  | some .tanstackStart => strPrefixOf "assets/" baseKey
  | some .nitro | some .vite => strPrefixOf "assets/" baseKey
  | _ => baseKey.data = []

/-- The upload source directory of `uploadAssets`: `.output/public` for the
SSR frameworks, `dist` otherwise. -/
def uploadDirectory (framework : Option Framework) : String :=
  match framework with
  | some .nitro | some .tanstackStart | some .nuxt => ".output/public"
  | _ => "dist"

/-- The cache-control header chosen per file by `uploadAssets`. -/
def uploadCacheControl (framework : Option Framework) (baseKey : String) :
    String :=
  if immutableAssetsTest framework baseKey then StandardCacheControl.immutable
  else StandardCacheControl.normal

/-- Model of the external `mime` package lookup table (collaborator
interface, spec §4.3 "a standard MIME table"): extension → content type
for common web asset types. -/
def mimeTable : List (String × String) :=
  [ ("html", "text/html"), ("htm", "text/html")
  , ("js", "text/javascript"), ("mjs", "text/javascript")
  , ("css", "text/css"), ("json", "application/json")
  , ("map", "application/json"), ("txt", "text/plain")
  , ("png", "image/png"), ("jpg", "image/jpeg"), ("jpeg", "image/jpeg")
  , ("gif", "image/gif"), ("webp", "image/webp")
  , ("svg", "image/svg+xml"), ("ico", "image/vnd.microsoft.icon")
  , ("woff", "font/woff"), ("woff2", "font/woff2")
  , ("wasm", "application/wasm"), ("xml", "application/xml")
  , ("pdf", "application/pdf") ]

/-- Split a character list on a separator (kernel-reducible counterpart of
`String.splitOn` for a one-character separator). -/
def splitChars (sep : Char) : List Char → List (List Char)
  | [] => [[]]
  | c :: cs =>
      match splitChars sep cs with
      | [] => [[c]]
      | g :: gs => if c = sep then [] :: g :: gs else (c :: g) :: gs

/-- The (lower-cased) extension of the last path segment, `none` when the
segment has no dot-separated extension. -/
def fileExtension (path : String) : Option (List Char) :=
  let base := ((splitChars '/' path.data).reverse).headD []
  match splitChars '.' base with
  | [] => none
  | [_] => none
  | parts => some (((parts.reverse).headD []).map Char.toLower)

/-- Look an extension up in the MIME table (`none` when absent). -/
def mimeLookup (ext : List Char) : List (String × String) → Option String
  | [] => none
  | (k, v) :: rest => if k.data = ext then some v else mimeLookup ext rest

/-- Model of `mime.getType` (external collaborator): look the extension of
the path up in the table; `null` (here `none`) when the extension is
unknown or absent. -/
def mimeGetType (path : String) : Option String :=
  (fileExtension path).bind fun ext => mimeLookup ext mimeTable

/-- The parameters of one `putObject` call issued by `uploadAssets` for a
file at `fullPath` under `directory`: the key is the path relative to the
directory (`fullPath.substring(directory.length + 1)`), the cache-control
header comes from the immutable-asset test on that relative key, and the
content type from `mime.getType` (which can be `null`). -/
structure PutObjectParams where
  Bucket : String
  Key : String
  CacheControl : String
  ContentType : Option String
  deriving Repr, DecidableEq

/-- One iteration of the `uploadAssets` loop. -/
def uploadAssetParams (framework : Option Framework)
    (bucketName directory fullPath : String) : PutObjectParams :=
  let baseKey := fullPath.drop (directory.length + 1)
  { Bucket := bucketName
    Key := baseKey
    CacheControl := uploadCacheControl framework baseKey
    ContentType := mimeGetType fullPath }

/-- The immutable-asset path prefix each profile declares, in the words of
the claim: `_nuxt/` for nuxt, `assets/` for tanstack-start, nitro and
vite. -/
def claimImmutableAssetPath : Framework → Option String
  | .nuxt => some "_nuxt/"
  | .tanstackStart => some "assets/"
  | .nitro => some "assets/"
  | .vite => some "assets/"
  | .other _ => none

/-- C5: for every framework profile, classification yields the immutable
cache-control constant (one-year max-age, `immutable`) exactly when the
relative key starts with the profile's immutable-asset prefix, and the
normal constant (zero browser max-age, one-day shared max-age,
8640-second stale-while-revalidate) otherwise; the content type of the
emitted `putObject` call is `mime.getType` of the path, which is `none`
whenever the extension is missing or not in the table. -/
theorem C5_classification (f : Framework) (pre : String)
    (baseKey : String) (hpre : claimImmutableAssetPath f = some pre) :
    (uploadCacheControl (some f) baseKey =
        "public,max-age=31536000,immutable" ↔ strPrefixOf pre baseKey = true) ∧
    (¬strPrefixOf pre baseKey = true →
      uploadCacheControl (some f) baseKey =
        "public,max-age=0,s-maxage=86400,stale-while-revalidate=8640") ∧
    (∀ bucketName directory fullPath,
      (uploadAssetParams (some f) bucketName directory fullPath).ContentType =
        mimeGetType fullPath) ∧
    (∀ path ext, fileExtension path = some ext →
      mimeLookup ext mimeTable = none → mimeGetType path = none) ∧
    (∀ path, fileExtension path = none → mimeGetType path = none) := by
  have htest : immutableAssetsTest (some f) baseKey = strPrefixOf pre baseKey := by
    cases f <;> simp_all [claimImmutableAssetPath, immutableAssetsTest]
  refine ⟨?_, ?_, fun _ _ _ => rfl, ?_, ?_⟩
  · rw [uploadCacheControl, htest]
    constructor
    · intro hc
      by_contra hp
      rw [if_neg ?_] at hc
      · exact absurd hc (by decide)
      · simpa using hp
    · intro hp
      rw [if_pos (by simpa using hp)]
      rfl
  · intro hp
    rw [uploadCacheControl, htest, if_neg (by simpa using hp)]
    rfl
  · intro path ext hext hlook
    rw [mimeGetType, hext]
    simpa using hlook
  · intro path hext
    rw [mimeGetType, hext]
    rfl

/-- Witness for C5: under the nuxt profile, `_nuxt/entry.BokJ3e.js`
classifies as immutable, `index.html` as normal with content type
`text/html`, and an unknown extension yields no content type. -/
theorem C5_classification_witness :
    claimImmutableAssetPath .nuxt = some "_nuxt/" ∧
    uploadCacheControl (some .nuxt) "_nuxt/entry.BokJ3e.js" =
      "public,max-age=31536000,immutable" ∧
    uploadCacheControl (some .nuxt) "index.html" =
      "public,max-age=0,s-maxage=86400,stale-while-revalidate=8640" ∧
    mimeGetType ".output/public/index.html" = some "text/html" ∧
    mimeGetType ".output/public/data.unknownext" = none := by
  refine ⟨rfl, ?_, ?_, by decide, ?_⟩
  · exact ((C5_classification .nuxt "_nuxt/" "_nuxt/entry.BokJ3e.js" rfl).1).mpr
      (by decide)
  · exact (C5_classification .nuxt "_nuxt/" "index.html" rfl).2.1 (by decide)
  · exact (C5_classification .nuxt "_nuxt/" "" rfl).2.2.2.1
      ".output/public/data.unknownext" "unknownext".data (by decide) (by decide)

/-! ### Claim C3: pre-upload vs post-deploy upload
(`preUploadAssets` / `uploadAssets` in `src/index.ts`) -/

/-- Whether the stack outputs record contains a key (the
`"SiteBucketName" in outputs` test). -/
def outputsContains (outputs : List (String × String)) (k : String) : Bool :=
  outputs.any fun p => p.1 = k

/-- The value of a stack output (later `describeStacks` entries overwrite
earlier ones in the `reduce`, so the last binding wins). -/
def outputsGet (outputs : List (String × String)) (k : String) : Option String :=
  (outputs.reverse).lookup k

/-- The observable outcome of an upload step. -/
inductive UploadOutcome
  | uploaded (bucketName : String)
  | skipped
  deriving Repr, DecidableEq

/-- `uploadAssets` up to its bucket-name precondition: throws the fatal
`SiteBucketName output not found` error when the output is absent,
otherwise uploads to the named bucket (the per-file loop is modelled by
`uploadAssetParams`). -/
def uploadAssetsStep (outputs : List (String × String)) :
    Except JsError UploadOutcome :=
  if !outputsContains outputs "SiteBucketName" then
    .error (.jsError "SiteBucketName output not found")
  else
    .ok (.uploaded ((outputsGet outputs "SiteBucketName").getD ""))

/-- `preUploadAssets` from `src/index.ts` (the `before:deploy:deploy`
hook): only for server-compute frameworks; if the `SiteBucketName` output
is absent, log and return without error; otherwise spawn the same
`frontend:upload` command that `uploadAssets` implements. -/
def preUploadAssetsStep (framework : Option Framework)
    (outputs : List (String × String)) : Except JsError UploadOutcome :=
  match hasSSR framework with
  | .error e => .error e
  | .ok true =>
      if !outputsContains outputs "SiteBucketName" then .ok .skipped
      else uploadAssetsStep outputs
  | .ok false => .ok .skipped

/-- C3: for a server-compute deployment, the pre-upload step silently
skips (no error) when the `SiteBucketName` output is absent, while the
post-deploy upload step fails with a fatal error in that state; when the
output is present, pre-upload performs exactly the same upload
operation. -/
theorem C3_pre_post_upload (fw : Option Framework)
    (outputs : List (String × String))
    (h : fw = some .nuxt ∨ fw = some .nitro ∨ fw = some .tanstackStart) :
    (outputsContains outputs "SiteBucketName" = false →
      preUploadAssetsStep fw outputs = .ok .skipped ∧
      uploadAssetsStep outputs =
        .error (.jsError "SiteBucketName output not found")) ∧
    (outputsContains outputs "SiteBucketName" = true →
      preUploadAssetsStep fw outputs = uploadAssetsStep outputs ∧
      ∃ b, uploadAssetsStep outputs = .ok (.uploaded b)) := by
  have hssr : hasSSR fw = .ok true := by
    rcases h with h | h | h <;> subst h <;> rfl
  constructor
  · intro habs
    constructor
    · unfold preUploadAssetsStep
      rw [hssr, habs]
      rfl
    · unfold uploadAssetsStep
      rw [habs]
      rfl
  · intro hpres
    constructor
    · unfold preUploadAssetsStep
      rw [hssr, hpres]
      rfl
    · unfold uploadAssetsStep
      rw [hpres]
      exact ⟨_, rfl⟩

/-- Witness for C3: a nuxt deployment with no outputs skips pre-upload but
fails post-deploy upload; with the output present both steps upload. -/
theorem C3_pre_post_upload_witness :
    (preUploadAssetsStep (some .nuxt) [] = .ok .skipped ∧
      uploadAssetsStep [] =
        .error (.jsError "SiteBucketName output not found")) ∧
    (preUploadAssetsStep (some .nuxt) [("SiteBucketName", "bucket-123")] =
        uploadAssetsStep [("SiteBucketName", "bucket-123")] ∧
      ∃ b, uploadAssetsStep [("SiteBucketName", "bucket-123")] =
        .ok (.uploaded b)) :=
  ⟨(C3_pre_post_upload (some .nuxt) [] (Or.inl rfl)).1 (by decide),
    (C3_pre_post_upload (some .nuxt) [("SiteBucketName", "bucket-123")]
      (Or.inl rfl)).2 (by decide)⟩

/-! ### Claim C6: build failure handling
(`build` in `src/index.ts`, `Process` in `src/process.ts`) -/

/-- The captured output of the spawned build process (`Process` in
`src/process.ts`): buffered stdout and stderr, and the exit code the
`close` event reports. -/
structure ProcessResult where
  exitCode : Int
  stdout : String
  stderr : String
  deriving Repr, DecidableEq

/-- `frameworkBuildEnvironment` from `src/index.ts`. -/
def frameworkBuildEnvironment : Option Framework → List (String × String)
  | some .tanstackStart | some .nuxt | some .nitro =>
      [("NITRO_PRESET", "aws-lambda"), ("SERVER_PRESET", "aws-lambda")]
  | _ => []

/-- The three environment layers merged by `build`
(`{...process.env, ...frameworkBuildEnvironment(), ...customEnv}`):
later entries win on lookup. -/
def buildEnv (processEnv frameworkEnv customEnv : List (String × String)) :
    List (String × String) :=
  processEnv ++ frameworkEnv ++ customEnv

/-- The value an environment list gives a key (the last binding wins, like
a JavaScript object spread). -/
def envValue (env : List (String × String)) (k : String) : Option String :=
  (env.reverse).lookup k

/-- The errors `build` can throw. -/
inductive BuildError
  | noCommand
  | buildFailed (exitCode : Int)
  deriving Repr, DecidableEq

/-- The result of the build step: the lines written via `log.error`
(stdout then stderr of the failed process) and the outcome. -/
structure BuildStepResult where
  errorLogs : List String
  outcome : Except BuildError Unit
  deriving Repr

/-- `build` from `src/index.ts`, parameterized by the resolved command and
the process runner (external collaborator `spawn`): a string command is
split on spaces, the first element is shifted off as the executable, an
empty argument vector throws `No build command given`, and a non-zero
exit logs the captured stdout and stderr and throws
`Build exited with code ...`. -/
def buildStep (command : JsStringOrList)
    (run : String → List String → List (String × String) → ProcessResult)
    (processEnv frameworkEnv customEnv : List (String × String)) :
    BuildStepResult :=
  let cmdList := match command with
    | .str s => s.splitOn " "
    | .list l => l
  match cmdList with
  | [] => { errorLogs := [], outcome := .error .noCommand }
  | cmd :: args =>
      let result := run cmd args (buildEnv processEnv frameworkEnv customEnv)
      if result.exitCode = 0 then { errorLogs := [], outcome := .ok () }
      else
        { errorLogs := [result.stdout, result.stderr]
          outcome := .error (.buildFailed result.exitCode) }

/-- The lifecycle events of the `frontend:build` command. -/
inductive PipelineStep
  | buildEvent
  | packageEvent
  deriving Repr, DecidableEq

/-- One run of a command: which lifecycle events executed, the error log,
and the failure (if any). -/
structure CommandRun where
  executed : List PipelineStep
  errorLogs : List String
  failure : Option BuildError
  deriving Repr, DecidableEq

/-- The `frontend:build` command, whose lifecycle events are
`["build", "package"]` (`frontend:build:build` → `build`,
`frontend:build:package` → `packageFunctions`): the host runs the events
in order and halts the chain when a step throws (spec §6: exit status is
propagated as pipeline failure), so packaging runs only after a
successful build. -/
def frontendBuildCommand (command : JsStringOrList)
    (run : String → List String → List (String × String) → ProcessResult)
    (processEnv frameworkEnv customEnv : List (String × String)) :
    CommandRun :=
  let b := buildStep command run processEnv frameworkEnv customEnv
  match b.outcome with
  | .error e =>
      { executed := [.buildEvent], errorLogs := b.errorLogs, failure := some e }
  | .ok _ =>
      { executed := [.buildEvent, .packageEvent], errorLogs := b.errorLogs
        failure := none }

/-- C6: when the build process exits non-zero, the build step fails the
pipeline with a fatal error carrying the exit code, after surfacing the
captured stdout and stderr through the error log, and the packaging event
is never invoked; when the exit code is zero, no error is raised and
packaging runs. -/
theorem C6_build_exit
    (run : String → List String → List (String × String) → ProcessResult)
    (processEnv frameworkEnv customEnv : List (String × String))
    (cmd : String) (args : List String) :
    ((run cmd args (buildEnv processEnv frameworkEnv customEnv)).exitCode ≠ 0 →
      frontendBuildCommand (.list (cmd :: args)) run
          processEnv frameworkEnv customEnv =
        { executed := [.buildEvent]
          errorLogs :=
            [(run cmd args (buildEnv processEnv frameworkEnv customEnv)).stdout,
              (run cmd args (buildEnv processEnv frameworkEnv customEnv)).stderr]
          failure := some (.buildFailed
            (run cmd args (buildEnv processEnv frameworkEnv customEnv)).exitCode) }) ∧
    ((run cmd args (buildEnv processEnv frameworkEnv customEnv)).exitCode = 0 →
      frontendBuildCommand (.list (cmd :: args)) run
          processEnv frameworkEnv customEnv =
        { executed := [.buildEvent, .packageEvent], errorLogs := []
          failure := none }) := by
  constructor
  · intro hne
    simp only [frontendBuildCommand, buildStep]
    rw [if_neg hne]
  · intro heq
    simp only [frontendBuildCommand, buildStep]
    rw [if_pos heq]

/-- Witness for C6 at the spec scenario: command `["npm", "build"]` with a
process exiting 1 and stderr `boom` fails with the captured output logged
and no packaging event. -/
theorem C6_build_exit_witness :
    frontendBuildCommand (.list ["npm", "build"])
        (fun _ _ _ => { exitCode := 1, stdout := "build output", stderr := "boom" })
        [] [] [] =
      { executed := [.buildEvent]
        errorLogs := ["build output", "boom"]
        failure := some (.buildFailed 1) } :=
  (C6_build_exit
    (fun _ _ _ => { exitCode := 1, stdout := "build output", stderr := "boom" })
    [] [] [] "npm" ["build"]).1 (by decide)

/-! ### Claim C7: not-found conditions during teardown and invalidation
(`emptySiteBucket` / `createInvalidation` in `src/index.ts`) -/

/-- One resource row of `describeStackResources`. -/
structure StackResource where
  LogicalResourceId : String
  PhysicalResourceId : String
  deriving Repr, DecidableEq

/-- The AWS calls the teardown/invalidation steps can issue. -/
inductive AwsCall
  | listObjectsV2 (bucket : String)
  | deleteObjects (bucket : String) (keys : List String)
  | createInvalidation (distributionId : String) (paths : List String)
  deriving Repr, DecidableEq

/-- `createInvalidation` from `src/index.ts`: resolve the physical id of
`SiteDistribution` from the stack resources; when present, issue one
invalidation of `/*`; when absent, issue nothing. -/
def createInvalidationStep (resources : List StackResource) : List AwsCall :=
  match resources.find? (fun r => r.LogicalResourceId = "SiteDistribution") with
  | some d => [.createInvalidation d.PhysicalResourceId ["/*"]]
  | none => []

/-- The S3 responses the teardown consults (external collaborator): the
result of `listObjectsV2` (object keys, or a thrown error code) and the
`Errors` array of the `deleteObjects` response. -/
structure S3Responses where
  listResult : Except String (List String)
  deleteErrorCodes : List String
  deriving Repr

/-- `listObjectsV2` from `src/index.ts`: one unpaginated list call; an
`AWS_S3_LIST_OBJECTS_V2_ACCESS_DENIED` failure is rewrapped in an
actionable message, any other failure propagates unchanged. -/
def listObjectsV2Step (bucketName : String) (s3 : S3Responses) :
    List AwsCall × Except JsError (List String) :=
  ([.listObjectsV2 bucketName],
    match s3.listResult with
    | .ok keys => .ok keys
    | .error code =>
        if code = "AWS_S3_LIST_OBJECTS_V2_ACCESS_DENIED" then
          .error (.serverlessError
            ("Could not list objects in the deployment bucket. Make sure you have sufficient permissions to access it. ["
              ++ code ++ "]"))
        else .error (.jsError code))

/-- `deleteObjects` from `src/index.ts`: list, then batch-delete when the
bucket is non-empty, rewrapping an `AccessDenied` delete error and any
other first error code. -/
def deleteObjectsStep (bucketName : String) (s3 : S3Responses) :
    List AwsCall × Except JsError Unit :=
  match listObjectsV2Step bucketName s3 with
  | (calls, .error e) => (calls, .error e)
  | (calls, .ok keys) =>
      if keys.length ≠ 0 then
        let calls := calls ++ [.deleteObjects bucketName keys]
        match s3.deleteErrorCodes with
        | [] => (calls, .ok ())
        | c :: _ =>
            if c = "AccessDenied" then
              (calls, .error (.serverlessError
                ("Could not empty the S3 deployment bucket (" ++ bucketName
                  ++ "). Make sure that you have permissions that allow S3 objects deletion. First encountered S3 error code: "
                  ++ c ++ " [CANNOT_DELETE_S3_OBJECTS_ACCESS_DENIED]")))
            else
              (calls, .error (.serverlessError
                ("Could not empty the S3 deployment bucket (" ++ bucketName
                  ++ "). First encountered S3 error code: " ++ c
                  ++ " [CANNOT_DELETE_S3_OBJECTS_GENERIC]")))
      else (calls, .ok ())

/-- `emptySiteBucket` from `src/index.ts`: resolve the physical id of
`SiteBucket`; when present, empty it via `deleteObjects`; when absent, log
and do nothing. -/
def emptySiteBucketStep (resources : List StackResource) (s3 : S3Responses) :
    List AwsCall × Except JsError Unit :=
  match resources.find? (fun r => r.LogicalResourceId = "SiteBucket") with
  | some b => deleteObjectsStep b.PhysicalResourceId s3
  | none => ([], .ok ())

/-- C7: not-found conditions are not errors: teardown on a stack with no
`SiteBucket` resource completes without error and performs zero
list/delete calls, and invalidation on a stack with no `SiteDistribution`
resource completes without error and issues no invalidation request. -/
theorem C7_not_found (res1 res2 : List StackResource) (s3 : S3Responses)
    (h1 : ∀ r ∈ res1, r.LogicalResourceId ≠ "SiteBucket")
    (h2 : ∀ r ∈ res2, r.LogicalResourceId ≠ "SiteDistribution") :
    emptySiteBucketStep res1 s3 = ([], .ok ()) ∧
      createInvalidationStep res2 = [] := by
  have hf1 : res1.find? (fun r => r.LogicalResourceId = "SiteBucket") = none := by
    rw [List.find?_eq_none]
    intro r hr
    simpa using h1 r hr
  have hf2 : res2.find?
      (fun r => r.LogicalResourceId = "SiteDistribution") = none := by
    rw [List.find?_eq_none]
    intro r hr
    simpa using h2 r hr
  constructor
  · unfold emptySiteBucketStep
    rw [hf1]
  · unfold createInvalidationStep
    rw [hf2]

/-- Witness for C7: a stack holding only the server Lambda resource
triggers neither delete calls nor an invalidation request. -/
theorem C7_not_found_witness :
    emptySiteBucketStep
        [{ LogicalResourceId := "ServerLambdaFunction",
           PhysicalResourceId := "fn-1" }]
        { listResult := .ok ["index.html"], deleteErrorCodes := [] } =
      ([], .ok ()) ∧
    createInvalidationStep
        [{ LogicalResourceId := "ServerLambdaFunction",
           PhysicalResourceId := "fn-1" }] = [] :=
  C7_not_found _ _ _ (by decide) (by decide)

/-! ### Claims C9 and C10: framework resolution
(`detectFramework` / `#hasSSR` in `src/index.ts`) -/

/-- The project signals consulted by automatic framework detection: the
`nuxt.config.ts` marker file and the `dependencies` / `devDependencies`
objects of `package.json` (`none` models an absent key, an object the
`in` operator cannot be applied to). -/
structure ProjectSignals where
  hasNuxtConfig : Bool
  dependencies : Option (List String)
  devDependencies : Option (List String)
  deriving Repr, DecidableEq

/-- The JavaScript `in` operator applied to a possibly-undefined object:
`key in undefined` throws a `TypeError`. -/
def jsIn (key : String) (obj : Option (List String)) : Except JsError Bool :=
  match obj with
  | none => .error (.typeError
      ("Cannot use \x27in\x27 operator to search for \x27" ++ key
        ++ "\x27 in undefined"))
  | some keys => .ok (keys.contains key)

/-- `detectFramework` from `src/index.ts`: an explicit override (including
`null`) is returned verbatim without consulting any project signal;
otherwise the dependency/marker checks run in their source order, with
the JavaScript evaluation order of `||` (left operand first, so a
dependency test on an undefined object throws before the marker or the
devDependencies fallback is consulted). -/
def detectFramework (overrideFw : Option (Option Framework))
    (sig : ProjectSignals) : Except JsError (Option Framework) :=
  match overrideFw with
  | some f => .ok f
  | none => do
      let tanstack ← jsIn "@tanstack/react-start" sig.dependencies
      if tanstack then return some .tanstackStart
      let nuxtDep ← jsIn "nuxt" sig.dependencies
      if nuxtDep || sig.hasNuxtConfig then return some .nuxt
      let nitroDep ← jsIn "nitro" sig.dependencies
      if nitroDep then return some .nitro
      let viteDep ← jsIn "vite" sig.dependencies
      if viteDep then return some .vite
      let viteDevDep ← jsIn "vite" sig.devDependencies
      if viteDevDep then return some .vite
      return none

/-- Framework resolution as the pipeline performs it: `detectFramework`
followed by the `#hasSSR` capability check — the composition used by
`addCloudFrontResources` and `preUploadAssets`, and the place where an
unsupported explicit override is rejected (with a thrown `Error`, since
`detectFramework` itself never validates the override). -/
def resolveFramework (overrideFw : Option (Option Framework))
    (sig : ProjectSignals) : Except JsError (Option Framework) := do
  let f ← detectFramework overrideFw sig
  let _ ← hasSSR f
  return f

/-- Whether an `Except` computation succeeded. -/
def exceptIsOk {ε α : Type} : Except ε α → Bool
  | .ok _ => true
  | .error _ => false

/-- C9 (amended): an explicit override is returned verbatim without any
detection (the result ignores every project signal); resolution plus the
SSR capability check fails exactly on an unsupported explicit override
identifier; and the detection path produces no error whenever
package.json declares both a `dependencies` and a `devDependencies`
object — but not unconditionally (see the counterexample). -/
theorem C9_framework_resolution :
    (∀ (f : Option Framework) (sig : ProjectSignals),
      detectFramework (some f) sig = .ok f) ∧
    (∀ (f : Option Framework) (sig : ProjectSignals),
      exceptIsOk (resolveFramework (some f) sig) = supportedFramework f) ∧
    (∀ (m : Bool) (d dd : List String),
      exceptIsOk (resolveFramework none
        { hasNuxtConfig := m, dependencies := some d,
          devDependencies := some dd }) = true) := by
  refine ⟨fun f sig => rfl, fun f sig => ?_, fun m d dd => ?_⟩
  · rcases f with _ | f
    · rfl
    · cases f <;> rfl
  · dsimp only [resolveFramework, detectFramework, jsIn, exceptIsOk]
    cases h1 : List.contains d "@tanstack/react-start"
    · cases h2 : List.contains d "nuxt"
      · cases m
        · cases h3 : List.contains d "nitro"
          · cases h4 : List.contains d "vite"
            · cases h5 : List.contains dd "vite" <;> rfl
            · rfl
          · rfl
        · rfl
      · rfl
    · rfl

/-- Counterexample to C9 as stated: with no explicit override and a
package.json that has no `dependencies` object (only `devDependencies`
with vite, and a nuxt marker file present), resolution throws a
`TypeError` — an error on an input that is not an unsupported explicit
override, contradicting "fails if and only if the explicit override names
an unsupported identifier; no other input produces an error". -/
theorem C9_counterexample :
    resolveFramework none
        { hasNuxtConfig := true, dependencies := none,
          devDependencies := some ["vite"] } =
      .error (.typeError
        "Cannot use \x27in\x27 operator to search for \x27@tanstack/react-start\x27 in undefined") :=
  rfl

/-- C10: with no explicit override, for every project whose package.json
lacks a `dependencies` object, `detectFramework` throws the `TypeError`
of applying `in` to `undefined` instead of returning `none` — even when
the nuxt marker file or a devDependencies signal is present, because the
first dependency test runs before either is consulted. -/
theorem C10_missing_dependencies (m : Bool) (dd : Option (List String)) :
    detectFramework none
        { hasNuxtConfig := m, dependencies := none, devDependencies := dd } =
      .error (.typeError
        "Cannot use \x27in\x27 operator to search for \x27@tanstack/react-start\x27 in undefined") :=
  rfl
